import Mathlib

/-!
Verification of the process-bridge and chat-session core of the
`vscode-ollama-extension` repository (`src/extension.ts`), shallowly
embedded in Lean. The external model runner, the shell spawned by
`child_process.exec`, and the editor host are black boxes: the runner is
an oracle `String → ExecResult`, the shell's field splitting is modelled
by `shellSplit`, and host interactions are recorded as `Effect` traces.
-/

namespace PyOllama

/-- Resolved configuration, fetched from the editor's configuration store
at every call (`getPythonPath` / `getModelDir` in `extension.ts`). -/
structure Config where
  pythonPath : String
  modelDir : String
deriving DecidableEq, Repr

/-- JavaScript `Array.prototype.join(' ')` as used in
`args.join(' ')` of `runPyOllamaCommand`. -/
def joinArgs : List String → String
  | [] => ""
  | [a] => a
  | a :: rest => a ++ " " ++ joinArgs rest

/-- The command string built by `runPyOllamaCommand` (extension.ts line 40):
plain template-literal interpolation, no quoting of any part. -/
def buildCommand (cfg : Config) (args : List String) : String :=
  cfg.pythonPath ++ " -m pyollama --model-dir " ++ cfg.modelDir ++ " " ++ joinArgs args

/-- Outcome of a process that the shell managed to run to exit status 0:
its captured standard output and standard error streams. -/
structure ExecOutcome where
  stdout : String
  stderr : String
deriving DecidableEq, Repr

/-- Result of `execAsync command`: success (exit 0) with captured streams,
or rejection (non-zero exit or spawn failure) carrying `error.message`. -/
inductive ExecResult where
  | ok : ExecOutcome → ExecResult
  | err : String → ExecResult
deriving DecidableEq, Repr

/-- What `runPyOllamaCommand` produces: the promise outcome (resolved
stdout or the thrown error's message) together with the `console.warn`
diagnostics it emitted. -/
structure RunOutcome where
  result : Except String String
  log : List String
deriving Repr

/-- `runPyOllamaCommand` (extension.ts lines 36–51): builds the command,
runs it via the oracle, logs stderr when non-empty, returns stdout on
success; on rejection rethrows with the `PyOllama command failed: ` prefix. -/
def runPyOllamaCommand (ex : String → ExecResult) (cfg : Config)
    (args : List String) : RunOutcome :=
  match ex (buildCommand cfg args) with
  | .ok o =>
      ⟨.ok o.stdout, if o.stderr = "" then [] else ["PyOllama stderr: " ++ o.stderr]⟩
  | .err msg => ⟨.error ("PyOllama command failed: " ++ msg), []⟩

/-- Model of the external POSIX shell's field splitting applied by
`child_process.exec` (`/bin/sh -c command`): fields are separated by
unquoted blanks; double quotes group characters into one field and are
removed. Metacharacter expansion beyond this is not modelled; the inputs
we evaluate contain only letters, blanks and double quotes, for which
this is the shell's exact behaviour. -/
def shellSplitAux : List Char → Bool → List Char → List (List Char) → List (List Char)
  | [], _, cur, acc => if cur.isEmpty then acc.reverse else (cur :: acc).reverse
  | c :: rest, inQuote, cur, acc =>
      if c = '"' then shellSplitAux rest (!inQuote) cur acc
      else if (c = ' ' || c = '\t') && !inQuote then
        if cur.isEmpty then shellSplitAux rest inQuote [] acc
        else shellSplitAux rest inQuote [] (cur :: acc)
      else shellSplitAux rest inQuote (cur ++ [c]) acc

/-- The argument vector the spawned program receives from the shell for a
given command string. -/
def shellSplit (command : String) : List String :=
  (shellSplitAux command.toList false [] []).map List.asString

/-- Arguments passed at the chat call site (extension.ts line 90):
the message text verbatim. -/
def chatGenerateArgs (model text : String) : List String :=
  ["generate", model, text]

/-- Arguments passed at the one-shot generate call site (extension.ts
line 130): the selection wrapped in literal double-quote characters. -/
def oneShotGenerateArgs (model text : String) : List String :=
  ["generate", model, "\"" ++ text ++ "\""]

/-- A message posted from the bridge back to the chat webview
(`chatPanel.webview.postMessage`, extension.ts lines 91–99). -/
inductive WebviewMsg where
  | response : String → WebviewMsg
  | errorMsg : String → WebviewMsg
deriving DecidableEq, Repr

/-- The `onDidReceiveMessage` handler body for one `sendMessage` event
(extension.ts lines 85–102): run `generate` with the model and the
message text verbatim; post `response` with the trimmed output on
success, `error` with the thrown message on failure. Exactly one message
is posted either way. -/
def handleChatMessage (ex : String → ExecResult) (cfg : Config)
    (modelName text : String) : WebviewMsg :=
  match (runPyOllamaCommand ex cfg (chatGenerateArgs modelName text)).result with
  | .ok out => .response out.trim
  | .error msg => .errorMsg msg

/-- Attribution of one turn of the conversation log. -/
inductive Role where
  | user
  | assistant
  | error
deriving DecidableEq, Repr

/-- One entry of a chat session's conversation log, as rendered by the
webview script (`addMessage` in `getChatHtml`). -/
structure Turn where
  role : Role
  text : String
deriving DecidableEq, Repr

/-- The turn sequence of an open chat session after the listed
`sendMessage` events have all resolved: the webview script appends the
user's text before posting (`addMessage(text, true)` then
`vscode.postMessage`), and appends the bridge's single reply when it
arrives (`response` verbatim, `error` rendered with an `Error: `
prefix). -/
def sessionTurns (ex : String → ExecResult) (cfg : Config) (modelName : String) :
    List String → List Turn
  | [] => []
  | text :: rest =>
      Turn.mk .user text ::
      (match handleChatMessage ex cfg modelName text with
       | .response r => Turn.mk .assistant r
       | .errorMsg e => Turn.mk .error ("Error: " ++ e)) ::
      sessionTurns ex cfg modelName rest

/-- A transient notice shown by the editor host
(`showInformationMessage` / `showErrorMessage`). -/
inductive Notice where
  | info : String → Notice
  | error : String → Notice
deriving DecidableEq, Repr

/-- `listModels` (extension.ts lines 53–60): one gateway call with
`['list']`; the raw output (no trimming at this call site) shown as an
informational notice, or the failure message as an error notice. -/
def listModels (ex : String → ExecResult) (cfg : Config) : Notice :=
  match (runPyOllamaCommand ex cfg ["list"]).result with
  | .ok out => .info ("Models:\n" ++ out)
  | .error msg => .error ("Failed to list models: " ++ msg)

/-- An observable interaction with the editor host or the operating
system, in the order the source performs them. -/
inductive Effect where
  | promptModelName : Effect
  | showErrorNotice : String → Effect
  | createChatPanel : String → Effect
  | runProcess : String → Effect
  | postToWebview : WebviewMsg → Effect
  | insertIntoDocument : String → Effect
deriving DecidableEq, Repr

/-- The effects of the chat message handler for a sequence of
`sendMessage` events processed to completion: each event spawns one
process (extension.ts line 90) and posts exactly one reply back. -/
def chatHandlerTrace (ex : String → ExecResult) (cfg : Config) (modelName : String) :
    List String → List Effect
  | [] => []
  | text :: rest =>
      Effect.runProcess (buildCommand cfg (chatGenerateArgs modelName text)) ::
      Effect.postToWebview (handleChatMessage ex cfg modelName text) ::
      chatHandlerTrace ex cfg modelName rest

/-- `startChat` (extension.ts lines 62–103) as an effect trace:
prompt for a model name; if the box resolves to `undefined` (cancel) or
the empty string, `!modelName` is true and the function returns with no
panel and no process; otherwise create the chat panel and serve the
incoming `sendMessage` events. -/
def startChatTrace (ex : String → ExecResult) (cfg : Config)
    (promptResult : Option String) (messages : List String) : List Effect :=
  Effect.promptModelName ::
  match promptResult with
  | none => []
  | some modelName =>
      if modelName = "" then []
      else Effect.createChatPanel modelName ::
        chatHandlerTrace ex cfg modelName messages

/-- The chat-session states named by the design, reached by `startChat`:
`created` when the command fires, `opened m` once the panel for model `m`
exists, `closed` when the function returns without opening one (and when
the host disposes the panel). -/
inductive SessionState where
  | created
  | opened : String → SessionState
  | closed
deriving DecidableEq, Repr

/-- The states a chat session passes through during `startChat`'s setup,
determined by the model-name prompt's result: cancelling (or entering an
empty name) returns before `createWebviewPanel`, so the session closes
without ever opening. -/
def startChatStates (promptResult : Option String) : List SessionState :=
  SessionState.created ::
  match promptResult with
  | none => [SessionState.closed]
  | some modelName =>
      if modelName = "" then [SessionState.closed]
      else [SessionState.opened modelName]

/-- `generateText` (extension.ts lines 105–137) as an effect trace, given
whether an editor is active, the text of the current selection (empty
string when nothing is selected, as `document.getText` returns), and the
model-name input box's result. -/
def generateTextTrace (ex : String → ExecResult) (cfg : Config)
    (hasEditor : Bool) (selectedText : String)
    (promptResult : Option String) : List Effect :=
  if hasEditor = false then [Effect.showErrorNotice "No active editor found"]
  else if selectedText = "" then
    [Effect.showErrorNotice "Please select some text to use as a prompt"]
  else
    Effect.promptModelName ::
    match promptResult with
    | none => []
    | some modelName =>
        if modelName = "" then []
        else
          Effect.runProcess (buildCommand cfg (oneShotGenerateArgs modelName selectedText)) ::
          match (runPyOllamaCommand ex cfg (oneShotGenerateArgs modelName selectedText)).result with
          | .ok out => [Effect.insertIntoDocument ("\n\n" ++ out.trim)]
          | .error msg => [Effect.showErrorNotice ("Generation failed: " ++ msg)]

/-- An oracle that resolves every command with the given streams and exit
status 0; used to evaluate the model at concrete inputs. -/
def constExec (o : ExecOutcome) : String → ExecResult := fun _ => .ok o

/-- An oracle that rejects every command with the given message
(non-zero exit or spawn failure); used to evaluate the model at concrete
inputs. -/
def constFail (msg : String) : String → ExecResult := fun _ => .err msg

/-- Whether a turn is attributed to the user. -/
def Role.isUser : Role → Bool
  | .user => true
  | _ => false

/-- Whether a turn is a reply from the bridge: an assistant answer or a
visible error. -/
def Role.isReply : Role → Bool
  | .assistant => true
  | .error => true
  | .user => false

/-- Two strings of different lengths are different. -/
theorem String.ne_of_length_ne {s t : String} (h : s.length ≠ t.length) : s ≠ t :=
  fun e => h (congrArg String.length e)

/-- Claim C1: contrary to the claim, `runPyOllamaCommand` does not hand
the prompt to the runner as a single unmodified argument. At the chat
call site the prompt `hello world` is interpolated unquoted, so the
shell splits it into the two arguments `hello` and `world`; at the
one-shot call site the prompt `say "hi" now` arrives as the single but
modified argument `say hi now`, its quote characters consumed by the
shell. -/
theorem prompt_not_passed_as_single_unmodified_argument :
    shellSplit (buildCommand ⟨"python", "/models"⟩ (chatGenerateArgs "llama" "hello world")) =
      ["python", "-m", "pyollama", "--model-dir", "/models",
       "generate", "llama", "hello", "world"] ∧
    shellSplit (buildCommand ⟨"python", "/models"⟩
        (oneShotGenerateArgs "llama" "say \"hi\" now")) =
      ["python", "-m", "pyollama", "--model-dir", "/models",
       "generate", "llama", "say hi now"] ∧
    "say hi now" ≠ "say \"hi\" now" :=
  ⟨by rfl, by rfl, by decide⟩

/-- Claim C2: contrary to the claim, a `modelDir` containing a space is
interpolated unquoted into the command string, so the shell splits it:
with `modelDir = "my models"` the runner receives `--model-dir` followed
by the two arguments `my` and `models`, not the single argument
`my models`. -/
theorem modelDir_with_space_is_word_split :
    shellSplit (buildCommand ⟨"python", "my models"⟩ ["list"]) =
      ["python", "-m", "pyollama", "--model-dir", "my", "models", "list"] := by
  rfl

/-- Claim C3: for every oracle (any mix of gateway successes and
failures), configuration, model and sequence of N resolved `sendMessage`
events, the session's turn sequence contains exactly N `User` turns and
exactly N turns that are `Assistant` or `Error`: each event appends one
user turn and the bridge posts back exactly one reply. -/
theorem sessionTurns_has_one_user_and_one_reply_turn_per_message
    (ex : String → ExecResult) (cfg : Config) (modelName : String)
    (msgs : List String) :
    (sessionTurns ex cfg modelName msgs).countP (fun t => t.role.isUser) = msgs.length ∧
    (sessionTurns ex cfg modelName msgs).countP (fun t => t.role.isReply) = msgs.length := by
  induction msgs with
  | nil => simp [sessionTurns]
  | cons text rest ih =>
      cases h : handleChatMessage ex cfg modelName text with
      | response r =>
          simp [sessionTurns, h, List.countP_cons, Role.isUser, Role.isReply] at ih ⊢
          omega
      | errorMsg e =>
          simp [sessionTurns, h, List.countP_cons, Role.isUser, Role.isReply] at ih ⊢
          omega

/-- Claim C4: whenever the process rejects (non-zero exit or spawn
failure), `runPyOllamaCommand` yields an error carrying a non-empty
message — never a success. -/
theorem runPyOllamaCommand_failure_never_a_success
    (ex : String → ExecResult) (cfg : Config) (args : List String) (msg : String)
    (h : ex (buildCommand cfg args) = .err msg) :
    (runPyOllamaCommand ex cfg args).result = .error ("PyOllama command failed: " ++ msg) ∧
    "PyOllama command failed: " ++ msg ≠ "" ∧
    ∀ out, (runPyOllamaCommand ex cfg args).result ≠ .ok out := by
  refine ⟨by simp [runPyOllamaCommand, h], ?_, ?_⟩
  · intro hc
    have hl := congrArg String.length hc
    simp [String.length_append] at hl
    exact absurd hl.1 (by decide)
  · intro out hc
    simp [runPyOllamaCommand, h] at hc

/-- Witness for claim C4 at a concrete rejecting oracle. -/
theorem runPyOllamaCommand_failure_never_a_success_witness :
    (runPyOllamaCommand (constFail "boom") ⟨"python", "/models"⟩ ["list"]).result =
      .error ("PyOllama command failed: " ++ "boom") ∧
    "PyOllama command failed: " ++ "boom" ≠ "" ∧
    ∀ out, (runPyOllamaCommand (constFail "boom") ⟨"python", "/models"⟩ ["list"]).result ≠
      .ok out :=
  runPyOllamaCommand_failure_never_a_success (constFail "boom")
    ⟨"python", "/models"⟩ ["list"] "boom" rfl

/-- Claim C5: whenever the process exits 0, `runPyOllamaCommand`
succeeds with the captured standard output even though standard error is
non-empty; the stderr text only appears in the diagnostic log. -/
theorem runPyOllamaCommand_succeeds_despite_stderr
    (ex : String → ExecResult) (cfg : Config) (args : List String) (o : ExecOutcome)
    (h : ex (buildCommand cfg args) = .ok o) (hs : o.stderr ≠ "") :
    (runPyOllamaCommand ex cfg args).result = .ok o.stdout ∧
    (runPyOllamaCommand ex cfg args).log = ["PyOllama stderr: " ++ o.stderr] := by
  constructor
  · simp [runPyOllamaCommand, h]
  · simp [runPyOllamaCommand, h, hs]

/-- Witness for claim C5 at a concrete oracle that exits 0 with a
warning on standard error. -/
theorem runPyOllamaCommand_succeeds_despite_stderr_witness :
    (runPyOllamaCommand (constExec ⟨"out", "warn"⟩) ⟨"python", "/models"⟩ ["list"]).result =
      .ok (ExecOutcome.mk "out" "warn").stdout ∧
    (runPyOllamaCommand (constExec ⟨"out", "warn"⟩) ⟨"python", "/models"⟩ ["list"]).log =
      ["PyOllama stderr: " ++ (ExecOutcome.mk "out" "warn").stderr] :=
  runPyOllamaCommand_succeeds_despite_stderr (constExec ⟨"out", "warn"⟩)
    ⟨"python", "/models"⟩ ["list"] ⟨"out", "warn"⟩ rfl (by decide)

/-- Claim C6 counterexample: with a process that exits 0 printing
`"hello\n  "`, the executor layer (`runPyOllamaCommand`) yields the raw
`"hello\n  "`, not the trimmed `"hello"` the claim states, and
`listModels` receives and displays that untrimmed text. -/
theorem executor_output_not_trimmed :
    (runPyOllamaCommand (constExec ⟨"hello\n  ", ""⟩) ⟨"python", "/models"⟩ ["list"]).result =
      .ok "hello\n  " ∧
    "hello\n  " ≠ "hello" ∧
    listModels (constExec ⟨"hello\n  ", ""⟩) ⟨"python", "/models"⟩ =
      .info ("Models:\n" ++ "hello\n  ") :=
  ⟨rfl, by decide, rfl⟩

/-- Claim C6 as amended: `runPyOllamaCommand` returns the captured
standard output unmodified; trimming happens at the call sites — the
chat handler posts the trimmed output and the one-shot generate
operation inserts the trimmed output — while `listModels` displays the
untrimmed text. -/
theorem executor_returns_raw_output_and_callers_trim
    (ex : String → ExecResult) (cfg : Config) (o : ExecOutcome)
    (model text : String) (args : List String)
    (h : ∀ c, ex c = .ok o) (hm : model ≠ "") (ht : text ≠ "") :
    (runPyOllamaCommand ex cfg args).result = .ok o.stdout ∧
    handleChatMessage ex cfg model text = .response o.stdout.trim ∧
    generateTextTrace ex cfg true text (some model) =
      [Effect.promptModelName,
       Effect.runProcess (buildCommand cfg (oneShotGenerateArgs model text)),
       Effect.insertIntoDocument ("\n\n" ++ o.stdout.trim)] ∧
    listModels ex cfg = .info ("Models:\n" ++ o.stdout) := by
  refine ⟨?_, ?_, ?_, ?_⟩ <;>
    simp [runPyOllamaCommand, handleChatMessage, generateTextTrace, listModels, h, hm, ht]

/-- Witness for the amended claim C6 at a concrete oracle exiting 0 with
output `"hello\n  "`. -/
theorem executor_returns_raw_output_and_callers_trim_witness :
    (runPyOllamaCommand (constExec ⟨"hello\n  ", ""⟩) ⟨"python", "/models"⟩ ["list"]).result =
      .ok (ExecOutcome.mk "hello\n  " "").stdout ∧
    handleChatMessage (constExec ⟨"hello\n  ", ""⟩) ⟨"python", "/models"⟩ "llama" "hi" =
      .response (ExecOutcome.mk "hello\n  " "").stdout.trim ∧
    generateTextTrace (constExec ⟨"hello\n  ", ""⟩) ⟨"python", "/models"⟩ true "hi"
        (some "llama") =
      [Effect.promptModelName,
       Effect.runProcess (buildCommand ⟨"python", "/models"⟩ (oneShotGenerateArgs "llama" "hi")),
       Effect.insertIntoDocument ("\n\n" ++ (ExecOutcome.mk "hello\n  " "").stdout.trim)] ∧
    listModels (constExec ⟨"hello\n  ", ""⟩) ⟨"python", "/models"⟩ =
      .info ("Models:\n" ++ (ExecOutcome.mk "hello\n  " "").stdout) :=
  executor_returns_raw_output_and_callers_trim (constExec ⟨"hello\n  ", ""⟩)
    ⟨"python", "/models"⟩ ⟨"hello\n  ", ""⟩ "llama" "hi" ["list"]
    (fun _ => rfl) (by decide) (by decide)

/-- Claim C7: when an editor is active but the selection is empty, the
one-shot generate operation shows exactly one error notice and returns:
the model-name prompt is never shown and no process is ever spawned. -/
theorem generateText_empty_selection_short_circuits
    (ex : String → ExecResult) (cfg : Config) (promptResult : Option String) :
    generateTextTrace ex cfg true "" promptResult =
      [Effect.showErrorNotice "Please select some text to use as a prompt"] ∧
    Effect.promptModelName ∉ generateTextTrace ex cfg true "" promptResult ∧
    ∀ c, Effect.runProcess c ∉ generateTextTrace ex cfg true "" promptResult := by
  refine ⟨rfl, ?_, ?_⟩ <;> simp [generateTextTrace]

/-- Claim C8: cancelling the model-name prompt moves the session from
`created` straight to `closed`: the `opened` state is never entered, no
chat panel is created, and no process is spawned, whatever messages
might have followed. -/
theorem startChat_cancel_goes_created_to_closed
    (ex : String → ExecResult) (cfg : Config) (messages : List String) :
    startChatStates none = [SessionState.created, SessionState.closed] ∧
    (∀ m, SessionState.opened m ∉ startChatStates none) ∧
    startChatTrace ex cfg none messages = [Effect.promptModelName] ∧
    (∀ m, Effect.createChatPanel m ∉ startChatTrace ex cfg none messages) ∧
    (∀ c, Effect.runProcess c ∉ startChatTrace ex cfg none messages) := by
  refine ⟨rfl, ?_, rfl, ?_, ?_⟩ <;> simp [startChatStates, startChatTrace]

/-- Claim C9: an empty string entered at the model-name prompt is
handled exactly like cancelling it: `startChat` and the one-shot
generate operation produce the same traces for `some ""` as for `none`,
with no chat panel created and no process spawned. -/
theorem empty_model_name_behaves_like_cancel
    (ex : String → ExecResult) (cfg : Config) (messages : List String)
    (hasEditor : Bool) (selectedText : String) :
    startChatTrace ex cfg (some "") messages = startChatTrace ex cfg none messages ∧
    startChatStates (some "") = startChatStates none ∧
    generateTextTrace ex cfg hasEditor selectedText (some "") =
      generateTextTrace ex cfg hasEditor selectedText none ∧
    (∀ m, Effect.createChatPanel m ∉ startChatTrace ex cfg (some "") messages) ∧
    (∀ c, Effect.runProcess c ∉ generateTextTrace ex cfg hasEditor selectedText (some "")) := by
  refine ⟨rfl, rfl, ?_, ?_, ?_⟩
  · cases hasEditor <;> by_cases hs : selectedText = "" <;>
      simp [generateTextTrace, hs]
  · simp [startChatTrace]
  · cases hasEditor <;> by_cases hs : selectedText = "" <;>
      simp [generateTextTrace, hs]

/-- Claim C10: for every configuration, model and prompt, the chat call
site and the one-shot generate call site hand the process executor
different command strings, because the one-shot site wraps the prompt in
literal double-quote characters while the chat site passes it verbatim. -/
theorem chat_and_oneshot_commands_differ (cfg : Config) (model text : String) :
    buildCommand cfg (chatGenerateArgs model text) ≠
      buildCommand cfg (oneShotGenerateArgs model text) ∧
    chatGenerateArgs model text ≠ oneShotGenerateArgs model text := by
  have hq : ("\"" : String).length = 1 := rfl
  constructor
  · apply String.ne_of_length_ne
    simp [buildCommand, chatGenerateArgs, oneShotGenerateArgs, joinArgs,
      String.length_append, hq]
    omega
  · have h3 : text ≠ "\"" ++ text ++ "\"" := by
      apply String.ne_of_length_ne
      simp [String.length_append, hq]
      omega
    simp [chatGenerateArgs, oneShotGenerateArgs, h3]

end PyOllama
